import Mathlib

/-!
# Verification of the pokemon-sales-tracker extraction-and-append pipeline

This file gives a shallow embedding of `src/flask_server.py` and proves the
spec claims about it. External effects (the LLM call, the Google Sheets
connect and append, the clock) are modelled by an environment `Env` that
fixes the outcome of each attempt; the ledger (the worksheet rows) is an
explicit state threaded through the functions. Exceptions raised by external
calls are modelled as failing outcomes; the fallible JSON body of a request
is modelled as an `Option`.

Result-kind vocabulary (spec name / source `email_type` string):
`NoContent` = "no_content", `ExtractionFailed` = "llm_error",
`LedgerUnavailable` = "sheets_error", `AppendFailed` = "append_error",
`Success` = "pokemon_sale".
-/

namespace PokemonSalesTracker

/-- A point in time, as provided by `datetime.now()`. -/
structure DateTime where
  year : Nat
  month : Nat
  day : Nat
  hour : Nat
  minute : Nat
  second : Nat
deriving Repr, DecidableEq

/-- Zero-pad a number to two digits, as `strftime` does for `%m %d %H %M %S`. -/
def pad2 (n : Nat) : String :=
  if n < 10 then "0" ++ toString n else toString n

/-- Zero-pad a number to four digits, as `strftime` does for `%Y`. -/
def pad4 (n : Nat) : String :=
  if n < 10 then "000" ++ toString n
  else if n < 100 then "00" ++ toString n
  else if n < 1000 then "0" ++ toString n
  else toString n

/-- `datetime.now().strftime("%Y-%m-%d %H:%M:%S")` (flask_server.py line 175). -/
def formatTimestamp (d : DateTime) : String :=
  pad4 d.year ++ "-" ++ pad2 d.month ++ "-" ++ pad2 d.day ++ " " ++
  pad2 d.hour ++ ":" ++ pad2 d.minute ++ ":" ++ pad2 d.second

/-- The JSON object returned by one `payout_chain.invoke` call: the two fields
the prompt asks for, each possibly missing. -/
structure LLMResponse where
  pokemon_name : Option String
  payout : Option String
deriving Repr, DecidableEq

/-- The `body` sub-object of `email_details`. -/
structure EmailBody where
  textBody : Option String
  htmlBody : Option String
deriving Repr, DecidableEq

/-- The `email_details` object of a request. -/
structure EmailDetails where
  body : Option EmailBody
  fromAddr : Option String
  subject : Option String
deriving Repr, DecidableEq

/-- The worksheet contents: a list of appended rows. -/
abbrev LedgerState := List (List String)

/-- Outcomes of the external calls made while serving one request, plus the
clock. `llmAttempts i = none` models the i-th `payout_chain.invoke` raising;
`connectAttempts i = false` models the i-th `initialize_google_sheets`
returning `(None, None)`; `appendAttempts i = false` models the i-th
`append_row` raising. -/
structure Env where
  llmAttempts : Nat → Option LLMResponse
  connectAttempts : Nat → Bool
  appendAttempts : Nat → Bool
  now : DateTime

/-- Python truthiness of an optional string field read with `.get`:
`None` and the empty string are falsy. -/
def truthyOpt (v : Option String) : Bool :=
  match v with
  | none => false
  | some s => s != ""

/-- The validation at flask_server.py line 133: the attempt succeeds only when
the response exists and both `pokemon_name` and `payout` are present and
truthy; otherwise `ValueError` is raised and the attempt fails. -/
def validResponse (r : Option LLMResponse) : Bool :=
  match r with
  | none => false
  | some resp => truthyOpt resp.pokemon_name && truthyOpt resp.payout

/-- The LLM extraction retry loop (flask_server.py lines 127-146): up to
`fuel` attempts, immediate retry; returns the first valid response together
with the number of `invoke` calls made. -/
def extractLoop (env : Env) : Nat → Nat → Option LLMResponse × Nat
  | 0, calls => (none, calls)
  | fuel + 1, calls =>
    if validResponse (env.llmAttempts calls) then (env.llmAttempts calls, calls + 1)
    else extractLoop env fuel (calls + 1)

/-- `initialize_google_sheets` (flask_server.py lines 53-85): opens the
spreadsheet and reads `row_count`; it performs no write, so the ledger state
is returned unchanged. `ok` is whether credentials, open and the read test
all succeed; the handle is trivial. -/
def init_google_sheets (ok : Bool) (st : LedgerState) : Option Unit × LedgerState :=
  (if ok then some () else none, st)

/-- The Sheets connection retry loop (flask_server.py lines 150-169): up to
`fuel` calls to `initialize_google_sheets`, immediate retry; returns whether a
worksheet was obtained and the number of connection calls made. -/
def connectLoop (env : Env) : Nat → Nat → LedgerState → Bool × Nat × LedgerState
  | 0, calls, st => (false, calls, st)
  | fuel + 1, calls, st =>
    match init_google_sheets (env.connectAttempts calls) st with
    | (some _, st1) => (true, calls + 1, st1)
    | (none, st1) => connectLoop env fuel (calls + 1) st1

/-- The append retry loop (flask_server.py lines 199-216): up to `fuel`
`append_row` calls, immediate retry; a failed call raises and writes nothing,
a successful call appends `row` to the worksheet. -/
def appendLoop (env : Env) (row : List String) : Nat → Nat → LedgerState → Bool × Nat × LedgerState
  | 0, calls, st => (false, calls, st)
  | fuel + 1, calls, st =>
    if env.appendAttempts calls then (true, calls + 1, st ++ [row])
    else appendLoop env row fuel (calls + 1) st

/-- `email_details.get("body", \x7b\x7d).get("textBody", "")` at
flask_server.py line 112. -/
def bodyText (d : EmailDetails) : String :=
  ((d.body.getD ⟨none, none⟩).textBody).getD ""

/-- `email_details.get("body", \x7b\x7d).get("htmlBody", "")` at
flask_server.py line 112. -/
def bodyHtml (d : EmailDetails) : String :=
  ((d.body.getD ⟨none, none⟩).htmlBody).getD ""

/-- The email body chosen at flask_server.py line 112: Python `a or b`
returns `a` when it is truthy (non-empty), otherwise `b`. -/
def getEmailBody (d : EmailDetails) : String :=
  if bodyText d = "" then bodyHtml d else bodyText d

/-- Python `str.strip()`: drop leading and trailing whitespace. -/
def pyStrip (s : String) : String :=
  String.mk (((s.data.dropWhile Char.isWhitespace).reverse.dropWhile
    Char.isWhitespace).reverse)

/-- Field cleaning at flask_server.py lines 178 and 184-185: strip, then
replace an empty or "N/A" name by the sentinel "Unknown Pokemon". -/
def normalizeName (s : String) : String :=
  if pyStrip s = "" ∨ pyStrip s = "N/A" then "Unknown Pokemon" else pyStrip s

/-- Field cleaning at flask_server.py lines 179 and 186-187: strip, then
replace an empty or "N/A" payout by the sentinel "0". -/
def normalizePayout (s : String) : String :=
  if pyStrip s = "" ∨ pyStrip s = "N/A" then "0" else pyStrip s

/-- The `extracted_data` sub-object of an analysis result. -/
structure ExtractedData where
  pokemon_name : String
  payout : String
  timestamp : Option String := none
deriving Repr, DecidableEq

/-- The `financial_data` sub-object of a success result. -/
structure FinancialData where
  payout : String
  currency : String
deriving Repr, DecidableEq

/-- The `product_info` sub-object of a success result. -/
structure ProductInfo where
  product_name : String
  category : String
deriving Repr, DecidableEq

/-- The dictionary returned by `analyze_with_llm`; confidence is an exact
rational standing for the Python float literals 0.0, 0.8, 0.95. -/
structure AnalysisResult where
  email_type : String
  confidence : ℚ
  extracted_data : Option ExtractedData := none
  error : Option String := none
  key_insights : List String := []
  financial_data : Option FinancialData := none
  product_info : Option ProductInfo := none
  recommendations : List String := []
  risk_assessment : Option String := none
  market_analysis : Option String := none
deriving Repr, DecidableEq

/-- How many external calls of each kind one `analyze_with_llm` run made. -/
structure Trace where
  llmCalls : Nat
  connectCalls : Nat
  appendCalls : Nat
deriving Repr, DecidableEq

/-- `analyze_with_llm` (flask_server.py lines 108-275): validate the body,
extract with retry, connect with retry, normalize, append with retry, and
shape the result. Returns the result, the final ledger state and the trace
of external calls. -/
def analyze_with_llm (env : Env) (email_details : EmailDetails) (st : LedgerState) :
    AnalysisResult × LedgerState × Trace :=
  let email_body := getEmailBody email_details
  if email_body = "" then
    ({ email_type := "no_content", confidence := 0,
       error := some "No email body content found" }, st, ⟨0, 0, 0⟩)
  else
    match extractLoop env 3 0 with
    | (none, lc) =>
      ({ email_type := "llm_error", confidence := 0,
         error := some "LLM extraction failed after 3 attempts" }, st, ⟨lc, 0, 0⟩)
    | (some resp, lc) =>
      match connectLoop env 3 0 st with
      | (false, cc, st1) =>
        ({ email_type := "sheets_error", confidence := 0.8,
           extracted_data := some { pokemon_name := resp.pokemon_name.getD "",
                                    payout := resp.payout.getD "" },
           error := some "Google Sheets connection failed after 3 attempts" },
         st1, ⟨lc, cc, 0⟩)
      | (true, cc, st1) =>
        let current_time := formatTimestamp env.now
        let pokemon_name := normalizeName (resp.pokemon_name.getD "")
        let payout_amount := normalizePayout (resp.payout.getD "")
        let row_data := [current_time, pokemon_name, payout_amount]
        match appendLoop env row_data 3 0 st1 with
        | (false, ac, st2) =>
          ({ email_type := "append_error", confidence := 0.8,
             extracted_data := some { pokemon_name := pokemon_name,
                                      payout := payout_amount },
             error := some "Failed to append to Google Sheets after 3 attempts" },
           st2, ⟨lc, cc, ac⟩)
        | (true, ac, st2) =>
          ({ email_type := "pokemon_sale", confidence := 0.95,
             extracted_data := some { pokemon_name := pokemon_name,
                                      payout := payout_amount,
                                      timestamp := some current_time },
             key_insights := ["Pokemon card sold: " ++ pokemon_name,
                              "Payout amount: $" ++ payout_amount,
                              "Sale recorded at: " ++ current_time],
             financial_data := some { payout := payout_amount, currency := "USD" },
             product_info := some { product_name := pokemon_name,
                                    category := "pokemon_card" },
             recommendations := ["Sale recorded successfully in Google Sheets",
                                 "Track similar sales for market analysis"],
             risk_assessment := some "low",
             market_analysis := some "Sale completed and recorded" },
           st2, ⟨lc, cc, ac⟩)

/-- The body of a `POST /process` request, once JSON parsing succeeded. -/
structure RequestData where
  email_details : EmailDetails
  timestamp : String
deriving Repr, DecidableEq

/-- The HTTP response of `POST /process`. -/
structure ProcessResponse where
  status : Nat
  llm_analysis : Option AnalysisResult := none
  error : Option String := none
deriving Repr, DecidableEq

/-- The `/process` handler (flask_server.py lines 277-310): a malformed
request body (modelled as `none`) raises while the data is accessed and is
answered with HTTP 500 and an error object; otherwise the orchestrator result
is returned with HTTP 200. -/
def process (env : Env) (data : Option RequestData) (st : LedgerState) :
    ProcessResponse × LedgerState :=
  match data with
  | none => ({ status := 500, error := some "malformed request body" }, st)
  | some d =>
    let out := analyze_with_llm env d.email_details st
    ({ status := 200, llm_analysis := some out.1 }, out.2.1)

/-- `test_google_sheets_connection` (flask_server.py lines 87-106): one
connect, then one append of the literal test row; `true` only when both
succeed. -/
def test_google_sheets_connection (connectOk appendOk : Bool) (now : DateTime)
    (st : LedgerState) : Bool × LedgerState :=
  match init_google_sheets connectOk st with
  | (some _, st1) =>
    if appendOk then (true, st1 ++ [[formatTimestamp now, "TEST_POKEMON", "0"]])
    else (false, st1)
  | (none, st1) => (false, st1)

/-- The HTTP response of `GET /health`. -/
structure HealthResponse where
  status : String
  service : String
  google_sheets : String
  groq_llm : String
deriving Repr, DecidableEq

/-- The `/health` handler (flask_server.py lines 312-323). -/
def health (connectOk appendOk : Bool) (now : DateTime) (st : LedgerState) :
    HealthResponse × LedgerState :=
  let out := test_google_sheets_connection connectOk appendOk now st
  ({ status := "healthy", service := "email-llm-processor",
     google_sheets := if out.1 then "connected" else "disconnected",
     groq_llm := "available" }, out.2)

/-! ## Shared lemmas about the retry loops and the normalizers -/

theorem extractLoop_all_fail (env : Env)
    (h : ∀ i, i < 3 → validResponse (env.llmAttempts i) = false) :
    extractLoop env 3 0 = (none, 3) := by
  have h0 := h 0 (by norm_num)
  have h1 := h 1 (by norm_num)
  have h2 := h 2 (by norm_num)
  simp [extractLoop, h0, h1, h2]

theorem connectLoop_all_fail (env : Env) (st : LedgerState)
    (h : ∀ i, i < 3 → env.connectAttempts i = false) :
    connectLoop env 3 0 st = (false, 3, st) := by
  have h0 := h 0 (by norm_num)
  have h1 := h 1 (by norm_num)
  have h2 := h 2 (by norm_num)
  simp [connectLoop, init_google_sheets, h0, h1, h2]

theorem appendLoop_all_fail (env : Env) (row : List String) (st : LedgerState)
    (h : ∀ i, i < 3 → env.appendAttempts i = false) :
    appendLoop env row 3 0 st = (false, 3, st) := by
  have h0 := h 0 (by norm_num)
  have h1 := h 1 (by norm_num)
  have h2 := h 2 (by norm_num)
  simp [appendLoop, h0, h1, h2]

theorem connectLoop_state (env : Env) (fuel calls : Nat) (st : LedgerState) :
    (connectLoop env fuel calls st).2.2 = st := by
  induction fuel generalizing calls with
  | zero => rfl
  | succ n ih =>
    by_cases h : env.connectAttempts calls
    · simp [connectLoop, init_google_sheets, h]
    · simp only [Bool.not_eq_true] at h
      simp [connectLoop, init_google_sheets, h, ih]

theorem connectLoop_succ (env : Env) (st : LedgerState)
    (h : ∃ i, i < 3 ∧ env.connectAttempts i = true) :
    ∃ cc, cc ≤ 3 ∧ connectLoop env 3 0 st = (true, cc, st) := by
  by_cases h0 : env.connectAttempts 0
  · exact ⟨1, by norm_num, by simp [connectLoop, init_google_sheets, h0]⟩
  · simp only [Bool.not_eq_true] at h0
    by_cases h1 : env.connectAttempts 1
    · exact ⟨2, by norm_num, by simp [connectLoop, init_google_sheets, h0, h1]⟩
    · simp only [Bool.not_eq_true] at h1
      by_cases h2 : env.connectAttempts 2
      · exact ⟨3, by norm_num, by simp [connectLoop, init_google_sheets, h0, h1, h2]⟩
      · simp only [Bool.not_eq_true] at h2
        obtain ⟨i, hi, hit⟩ := h
        interval_cases i <;> simp_all

theorem appendLoop_succ (env : Env) (row : List String) (st : LedgerState)
    (h : ∃ i, i < 3 ∧ env.appendAttempts i = true) :
    ∃ ac, ac ≤ 3 ∧ appendLoop env row 3 0 st = (true, ac, st ++ [row]) := by
  by_cases h0 : env.appendAttempts 0
  · exact ⟨1, by norm_num, by simp [appendLoop, h0]⟩
  · simp only [Bool.not_eq_true] at h0
    by_cases h1 : env.appendAttempts 1
    · exact ⟨2, by norm_num, by simp [appendLoop, h0, h1]⟩
    · simp only [Bool.not_eq_true] at h1
      by_cases h2 : env.appendAttempts 2
      · exact ⟨3, by norm_num, by simp [appendLoop, h0, h1, h2]⟩
      · simp only [Bool.not_eq_true] at h2
        obtain ⟨i, hi, hit⟩ := h
        interval_cases i <;> simp_all

theorem appendLoop_spec (env : Env) (row : List String) (fuel calls : Nat)
    (st : LedgerState) :
    (appendLoop env row fuel calls st).2.2 =
      if (appendLoop env row fuel calls st).1 then st ++ [row] else st := by
  induction fuel generalizing calls with
  | zero => rfl
  | succ n ih =>
    by_cases h : env.appendAttempts calls
    · simp [appendLoop, h]
    · simp only [Bool.not_eq_true] at h
      simp [appendLoop, h, ih]

theorem normalizeName_ne_empty (s : String) : normalizeName s ≠ "" := by
  unfold normalizeName
  split
  · decide
  · rename_i h
    exact fun hc => h (Or.inl hc)

theorem normalizePayout_ne_empty (s : String) : normalizePayout s ≠ "" := by
  unfold normalizePayout
  split
  · decide
  · rename_i h
    exact fun hc => h (Or.inl hc)

/-- Every run of the pipeline either is a failure outcome (one of the four
expected failure kinds, with a diagnostic message, leaving the ledger
untouched), or is a success that appends exactly one row with both data
fields non-empty. -/
theorem analyze_shape (env : Env) (d : EmailDetails) (st : LedgerState) :
    ((analyze_with_llm env d st).1.error ≠ none ∧
     (analyze_with_llm env d st).2.1 = st ∧
     ((analyze_with_llm env d st).1.email_type = "no_content" ∨
      (analyze_with_llm env d st).1.email_type = "llm_error" ∨
      (analyze_with_llm env d st).1.email_type = "sheets_error" ∨
      (analyze_with_llm env d st).1.email_type = "append_error")) ∨
    ((analyze_with_llm env d st).1.email_type = "pokemon_sale" ∧
     (analyze_with_llm env d st).1.error = none ∧
     ∃ n p, n ≠ "" ∧ p ≠ "" ∧
       (analyze_with_llm env d st).2.1 = st ++ [[formatTimestamp env.now, n, p]]) := by
  by_cases hb : getEmailBody d = ""
  · left
    simp [analyze_with_llm, hb]
  · rcases hx : extractLoop env 3 0 with ⟨r, lc⟩
    cases r with
    | none =>
      left
      simp [analyze_with_llm, hb, hx]
    | some resp =>
      rcases hc : connectLoop env 3 0 st with ⟨b, cc, st1⟩
      have hst1 : st1 = st := by
        have h := connectLoop_state env 3 0 st
        rw [hc] at h
        exact h
      have hc2 : connectLoop env 3 0 st = (b, cc, st) := by rw [hc, hst1]
      cases b with
      | false =>
        left
        simp [analyze_with_llm, hb, hx, hc2]
      | true =>
        rcases ha : appendLoop env
            [formatTimestamp env.now, normalizeName (resp.pokemon_name.getD ""),
             normalizePayout (resp.payout.getD "")] 3 0 st with ⟨b2, ac, st2⟩
        have hsp := appendLoop_spec env
            [formatTimestamp env.now, normalizeName (resp.pokemon_name.getD ""),
             normalizePayout (resp.payout.getD "")] 3 0 st
        rw [ha] at hsp
        cases b2 with
        | false =>
          left
          simp only [Bool.false_eq_true, if_false] at hsp
          simp [analyze_with_llm, hb, hx, hc2, ha, hsp]
        | true =>
          right
          simp only [if_true] at hsp
          refine ⟨?_, ?_, normalizeName (resp.pokemon_name.getD ""),
            normalizePayout (resp.payout.getD ""),
            normalizeName_ne_empty _, normalizePayout_ne_empty _, ?_⟩ <;>
            simp [analyze_with_llm, hb, hx, hc2, ha, hsp]

/-! ## Concrete sample inputs used by the witnesses -/

/-- A fixed clock reading. -/
def sampleNow : DateTime := ⟨2024, 1, 15, 10, 30, 0⟩

/-- The extractor response of the end-to-end scenario in the spec. -/
def sampleResp : LLMResponse :=
  { pokemon_name := some "Charizard VMAX", payout := some "135.00" }

/-- An environment where every external call succeeds at its first attempt. -/
def envAllOk : Env :=
  { llmAttempts := fun _ => some sampleResp,
    connectAttempts := fun _ => true,
    appendAttempts := fun _ => true,
    now := sampleNow }

/-- As `envAllOk`, but every LLM invocation raises. -/
def envLLMFail : Env := { envAllOk with llmAttempts := fun _ => none }

/-- As `envAllOk`, but every Sheets connection attempt fails. -/
def envConnectFail : Env := { envAllOk with connectAttempts := fun _ => false }

/-- As `envAllOk`, but every append attempt raises. -/
def envAppendFail : Env := { envAllOk with appendAttempts := fun _ => false }

/-- The body of the email in the end-to-end scenario of the spec. -/
def sampleBody : EmailBody :=
  { textBody := some "Sale Price: $150.00, Total Payout: $135.00, item: Charizard VMAX",
    htmlBody := none }

/-- The email of the end-to-end scenario in the spec. -/
def sampleDetails : EmailDetails :=
  { body := some sampleBody,
    fromAddr := some "cs@email.fanaticscollect.com",
    subject := some "Your Buy Now Sale is Complete" }

/-- A request with no body object at all. -/
def emptyDetails : EmailDetails := { body := none, fromAddr := none, subject := none }

/-! ## The claims -/

/-- C1: if the email body is non-empty and every one of the 3 extraction
attempts fails (a response missing `pokemon_name` or `payout` counts as a
failed attempt), the pipeline returns kind ExtractionFailed (`llm_error`)
with confidence 0.0, the ledger client is never invoked (zero connect calls,
zero append calls) and the ledger is unchanged. -/
theorem c1_extraction_exhausted (env : Env) (d : EmailDetails) (st : LedgerState)
    (hbody : getEmailBody d ≠ "")
    (hfail : ∀ i, i < 3 → validResponse (env.llmAttempts i) = false) :
    (analyze_with_llm env d st).1.email_type = "llm_error" ∧
    (analyze_with_llm env d st).1.confidence = 0 ∧
    (analyze_with_llm env d st).2.2.connectCalls = 0 ∧
    (analyze_with_llm env d st).2.2.appendCalls = 0 ∧
    (analyze_with_llm env d st).2.1 = st := by
  have he := extractLoop_all_fail env hfail
  simp [analyze_with_llm, hbody, he]

/-- Witness for C1 at a concrete environment where all LLM calls raise. -/
theorem c1_extraction_exhausted_witness :
    (analyze_with_llm envLLMFail sampleDetails []).1.email_type = "llm_error" ∧
    (analyze_with_llm envLLMFail sampleDetails []).1.confidence = 0 ∧
    (analyze_with_llm envLLMFail sampleDetails []).2.2.connectCalls = 0 ∧
    (analyze_with_llm envLLMFail sampleDetails []).2.2.appendCalls = 0 ∧
    (analyze_with_llm envLLMFail sampleDetails []).2.1 = [] :=
  c1_extraction_exhausted envLLMFail sampleDetails [] (by decide) (fun _ _ => rfl)

/-- C4: if both the plain-text body and the markup body are empty or missing,
the pipeline returns kind NoContent (`no_content`) with confidence 0.0
immediately: zero extraction attempts, zero ledger calls, ledger unchanged. -/
theorem c4_no_content (env : Env) (d : EmailDetails) (st : LedgerState)
    (ht : bodyText d = "") (hh : bodyHtml d = "") :
    (analyze_with_llm env d st).1.email_type = "no_content" ∧
    (analyze_with_llm env d st).1.confidence = 0 ∧
    (analyze_with_llm env d st).2.2 = ⟨0, 0, 0⟩ ∧
    (analyze_with_llm env d st).2.1 = st := by
  have hb : getEmailBody d = "" := by simp [getEmailBody, ht, hh]
  simp [analyze_with_llm, hb]

/-- Witness for C4 at a request whose body object is absent. -/
theorem c4_no_content_witness :
    (analyze_with_llm envAllOk emptyDetails []).1.email_type = "no_content" ∧
    (analyze_with_llm envAllOk emptyDetails []).1.confidence = 0 ∧
    (analyze_with_llm envAllOk emptyDetails []).2.2 = ⟨0, 0, 0⟩ ∧
    (analyze_with_llm envAllOk emptyDetails []).2.1 = [] :=
  c4_no_content envAllOk emptyDetails [] rfl rfl

/-- C2: when extraction, connection and append all succeed, the pipeline
returns kind Success (`pokemon_sale`) with confidence 0.95 carrying the
normalized record, the fixed-format timestamp, risk label "low" and currency
"USD", and the row appended to the ledger is exactly
`[timestamp, itemName, payoutAmount]` of the normalized record. -/
theorem c2_success (env : Env) (d : EmailDetails) (st : LedgerState)
    (resp : LLMResponse) (k : Nat)
    (hbody : getEmailBody d ≠ "")
    (hex : extractLoop env 3 0 = (some resp, k))
    (hconn : ∃ i, i < 3 ∧ env.connectAttempts i = true)
    (happ : ∃ i, i < 3 ∧ env.appendAttempts i = true) :
    (analyze_with_llm env d st).1.email_type = "pokemon_sale" ∧
    (analyze_with_llm env d st).1.confidence = 0.95 ∧
    (analyze_with_llm env d st).1.extracted_data =
      some { pokemon_name := normalizeName (resp.pokemon_name.getD ""),
             payout := normalizePayout (resp.payout.getD ""),
             timestamp := some (formatTimestamp env.now) } ∧
    (analyze_with_llm env d st).1.risk_assessment = some "low" ∧
    (analyze_with_llm env d st).1.financial_data =
      some { payout := normalizePayout (resp.payout.getD ""), currency := "USD" } ∧
    (analyze_with_llm env d st).2.1 =
      st ++ [[formatTimestamp env.now, normalizeName (resp.pokemon_name.getD ""),
              normalizePayout (resp.payout.getD "")]] := by
  obtain ⟨cc, _, hc⟩ := connectLoop_succ env st hconn
  obtain ⟨ac, _, ha⟩ := appendLoop_succ env
    [formatTimestamp env.now, normalizeName (resp.pokemon_name.getD ""),
     normalizePayout (resp.payout.getD "")] st happ
  simp [analyze_with_llm, hbody, hex, hc, ha]

/-- Witness for C2 at the end-to-end scenario of the spec: body mentioning a
Charizard VMAX sale, extractor returning the name and "135.00", ledger
working; the appended row is the timestamp plus the two extracted fields. -/
theorem c2_success_witness :
    (analyze_with_llm envAllOk sampleDetails []).1.email_type = "pokemon_sale" ∧
    (analyze_with_llm envAllOk sampleDetails []).1.confidence = 0.95 ∧
    (analyze_with_llm envAllOk sampleDetails []).1.extracted_data =
      some { pokemon_name := normalizeName (sampleResp.pokemon_name.getD ""),
             payout := normalizePayout (sampleResp.payout.getD ""),
             timestamp := some (formatTimestamp envAllOk.now) } ∧
    (analyze_with_llm envAllOk sampleDetails []).1.risk_assessment = some "low" ∧
    (analyze_with_llm envAllOk sampleDetails []).1.financial_data =
      some { payout := normalizePayout (sampleResp.payout.getD ""), currency := "USD" } ∧
    (analyze_with_llm envAllOk sampleDetails []).2.1 =
      [] ++ [[formatTimestamp envAllOk.now, normalizeName (sampleResp.pokemon_name.getD ""),
              normalizePayout (sampleResp.payout.getD "")]] :=
  c2_success envAllOk sampleDetails [] sampleResp 1 (by decide) (by decide)
    ⟨0, by norm_num, rfl⟩ ⟨0, by norm_num, rfl⟩

/-- C5: when extraction succeeds (at LLM call k) but all 3 ledger-connection
attempts fail, the pipeline returns kind LedgerUnavailable (`sheets_error`)
with confidence 0.8 carrying exactly the record the extractor returned, the
ledger is unchanged, and the trace shows the extraction stage was not
re-attempted: exactly the k LLM calls made before the connection stage, 3
connection calls, and no append call. -/
theorem c5_ledger_unavailable (env : Env) (d : EmailDetails) (st : LedgerState)
    (resp : LLMResponse) (k : Nat)
    (hbody : getEmailBody d ≠ "")
    (hex : extractLoop env 3 0 = (some resp, k))
    (hconn : ∀ i, i < 3 → env.connectAttempts i = false) :
    (analyze_with_llm env d st).1.email_type = "sheets_error" ∧
    (analyze_with_llm env d st).1.confidence = 0.8 ∧
    (analyze_with_llm env d st).1.extracted_data =
      some { pokemon_name := resp.pokemon_name.getD "",
             payout := resp.payout.getD "", timestamp := none } ∧
    (analyze_with_llm env d st).2.1 = st ∧
    (analyze_with_llm env d st).2.2 = ⟨k, 3, 0⟩ := by
  have hc := connectLoop_all_fail env st hconn
  simp [analyze_with_llm, hbody, hex, hc]

/-- Witness for C5 at a concrete environment whose Sheets connections all
fail after a first-attempt extraction success. -/
theorem c5_ledger_unavailable_witness :
    (analyze_with_llm envConnectFail sampleDetails []).1.email_type = "sheets_error" ∧
    (analyze_with_llm envConnectFail sampleDetails []).1.confidence = 0.8 ∧
    (analyze_with_llm envConnectFail sampleDetails []).1.extracted_data =
      some { pokemon_name := sampleResp.pokemon_name.getD "",
             payout := sampleResp.payout.getD "", timestamp := none } ∧
    (analyze_with_llm envConnectFail sampleDetails []).2.1 = [] ∧
    (analyze_with_llm envConnectFail sampleDetails []).2.2 = ⟨1, 3, 0⟩ :=
  c5_ledger_unavailable envConnectFail sampleDetails [] sampleResp 1
    (by decide) (by decide) (fun _ _ => rfl)

/-- C6: when extraction and connection succeed but all 3 append attempts
fail, the pipeline returns kind AppendFailed (`append_error`) with confidence
0.8 carrying the extracted (normalized) record, and nothing is persisted. -/
theorem c6_append_failed (env : Env) (d : EmailDetails) (st : LedgerState)
    (resp : LLMResponse) (k : Nat)
    (hbody : getEmailBody d ≠ "")
    (hex : extractLoop env 3 0 = (some resp, k))
    (hconn : ∃ i, i < 3 ∧ env.connectAttempts i = true)
    (happ : ∀ i, i < 3 → env.appendAttempts i = false) :
    (analyze_with_llm env d st).1.email_type = "append_error" ∧
    (analyze_with_llm env d st).1.confidence = 0.8 ∧
    (analyze_with_llm env d st).1.extracted_data =
      some { pokemon_name := normalizeName (resp.pokemon_name.getD ""),
             payout := normalizePayout (resp.payout.getD ""), timestamp := none } ∧
    (analyze_with_llm env d st).2.1 = st := by
  obtain ⟨cc, _, hc⟩ := connectLoop_succ env st hconn
  have ha := appendLoop_all_fail env
    [formatTimestamp env.now, normalizeName (resp.pokemon_name.getD ""),
     normalizePayout (resp.payout.getD "")] st happ
  simp [analyze_with_llm, hbody, hex, hc, ha]

/-- Witness for C6 at a concrete environment whose appends all raise. -/
theorem c6_append_failed_witness :
    (analyze_with_llm envAppendFail sampleDetails []).1.email_type = "append_error" ∧
    (analyze_with_llm envAppendFail sampleDetails []).1.confidence = 0.8 ∧
    (analyze_with_llm envAppendFail sampleDetails []).1.extracted_data =
      some { pokemon_name := normalizeName (sampleResp.pokemon_name.getD ""),
             payout := normalizePayout (sampleResp.payout.getD ""), timestamp := none } ∧
    (analyze_with_llm envAppendFail sampleDetails []).2.1 = [] :=
  c6_append_failed envAppendFail sampleDetails [] sampleResp 1
    (by decide) (by decide) ⟨0, by norm_num, rfl⟩ (fun _ _ => rfl)

/-- C3 counterexample: the code's sentinel for an empty item name is
"Unknown Pokemon" (flask_server.py line 185), not "Unknown Item" as the
claim states; the extractor output with empty name and "N/A" payout is
normalized to ("Unknown Pokemon", "0"). -/
theorem c3_sentinel_counterexample :
    normalizeName "" = "Unknown Pokemon" ∧
    normalizePayout "N/A" = "0" ∧
    "Unknown Pokemon" ≠ "Unknown Item" := by
  refine ⟨by decide, by decide, by decide⟩

/-- C3 (amended): for every record reaching the persistence stage, an empty
(after stripping) or missing item name is normalized to the sentinel
"Unknown Pokemon" and an empty, missing or "N/A" payout to the sentinel "0"
before the append, so both fields are non-empty in every persisted row; in
particular the output with empty name and "N/A" payout normalizes to
("Unknown Pokemon", "0"). -/
theorem c3_normalization (env : Env) (d : EmailDetails) (st : LedgerState)
    (s p : String) (hs : pyStrip s = "") (hp : pyStrip p = "" ∨ pyStrip p = "N/A") :
    normalizeName s = "Unknown Pokemon" ∧
    normalizePayout p = "0" ∧
    normalizeName "" = "Unknown Pokemon" ∧
    normalizePayout "N/A" = "0" ∧
    (∀ t, normalizeName t ≠ "" ∧ normalizePayout t ≠ "") ∧
    ((analyze_with_llm env d st).2.1 = st ∨
     ∃ n q, n ≠ "" ∧ q ≠ "" ∧
       (analyze_with_llm env d st).2.1 = st ++ [[formatTimestamp env.now, n, q]]) := by
  refine ⟨by simp [normalizeName, hs], by rcases hp with hp | hp <;> simp [normalizePayout, hp],
    by decide, by decide,
    fun t => ⟨normalizeName_ne_empty t, normalizePayout_ne_empty t⟩, ?_⟩
  rcases analyze_shape env d st with ⟨_, hl, _⟩ | ⟨_, _, n, q, hn, hq, hl⟩
  · exact Or.inl hl
  · exact Or.inr ⟨n, q, hn, hq, hl⟩

/-- Witness for the amended C3 at the concrete record of the spec example:
empty item name, "N/A" payout, evaluated in the all-success environment. -/
theorem c3_normalization_witness :
    normalizeName "" = "Unknown Pokemon" ∧
    normalizePayout "N/A" = "0" ∧
    normalizeName "" = "Unknown Pokemon" ∧
    normalizePayout "N/A" = "0" ∧
    (∀ t, normalizeName t ≠ "" ∧ normalizePayout t ≠ "") ∧
    ((analyze_with_llm envAllOk sampleDetails []).2.1 = [] ∨
     ∃ n q, n ≠ "" ∧ q ≠ "" ∧
       (analyze_with_llm envAllOk sampleDetails []).2.1 =
         [] ++ [[formatTimestamp envAllOk.now, n, q]]) :=
  c3_normalization envAllOk sampleDetails [] "" "N/A" (by decide) (Or.inr (by decide))

/-- C7: every expected failure kind (NoContent, ExtractionFailed,
LedgerUnavailable, AppendFailed) is recovered into a structured result with a
diagnostic message and returned with HTTP 200 inside the normal response
shape; a well-formed request is always answered 200 with the orchestrator
result embedded, and HTTP 500 with an error body occurs exactly for a
malformed request body. -/
theorem c7_error_surface (env : Env) (d : RequestData) (od : Option RequestData)
    (st : LedgerState) :
    ((process env (some d) st).1.status = 200 ∧
     (process env (some d) st).1.error = none ∧
     (process env (some d) st).1.llm_analysis =
       some (analyze_with_llm env d.email_details st).1) ∧
    ((process env none st).1.status = 500 ∧
     (process env none st).1.llm_analysis = none ∧
     (process env none st).1.error ≠ none) ∧
    ((process env od st).1.status = 500 → od = none) ∧
    (((analyze_with_llm env d.email_details st).1.email_type = "no_content" ∨
      (analyze_with_llm env d.email_details st).1.email_type = "llm_error" ∨
      (analyze_with_llm env d.email_details st).1.email_type = "sheets_error" ∨
      (analyze_with_llm env d.email_details st).1.email_type = "append_error") →
     (analyze_with_llm env d.email_details st).1.error ≠ none) := by
  refine ⟨⟨rfl, rfl, rfl⟩, ⟨rfl, rfl, by simp [process]⟩, ?_, ?_⟩
  · intro h
    cases od with
    | none => rfl
    | some d2 => simp [process] at h
  · intro hk
    rcases analyze_shape env d.email_details st with ⟨he, _, _⟩ | ⟨hs, _, _⟩
    · exact he
    · rcases hk with hk | hk | hk | hk <;> rw [hs] at hk <;> simp at hk

/-- Witness for C7 at the sample request in the all-success environment. -/
theorem c7_error_surface_witness :
    ((process envAllOk (some { email_details := sampleDetails, timestamp := "t" })
        []).1.status = 200 ∧
     (process envAllOk (some { email_details := sampleDetails, timestamp := "t" })
        []).1.error = none ∧
     (process envAllOk (some { email_details := sampleDetails, timestamp := "t" })
        []).1.llm_analysis = some (analyze_with_llm envAllOk sampleDetails []).1) ∧
    ((process envAllOk none []).1.status = 500 ∧
     (process envAllOk none []).1.llm_analysis = none ∧
     (process envAllOk none []).1.error ≠ none) ∧
    ((process envAllOk none []).1.status = 500 → (none : Option RequestData) = none) ∧
    (((analyze_with_llm envAllOk sampleDetails []).1.email_type = "no_content" ∨
      (analyze_with_llm envAllOk sampleDetails []).1.email_type = "llm_error" ∨
      (analyze_with_llm envAllOk sampleDetails []).1.email_type = "sheets_error" ∨
      (analyze_with_llm envAllOk sampleDetails []).1.email_type = "append_error") →
     (analyze_with_llm envAllOk sampleDetails []).1.error ≠ none) :=
  c7_error_surface envAllOk { email_details := sampleDetails, timestamp := "t" } none []

/-- C8: `/health` performs a live ledger round-trip and reports
`google_sheets` as "connected" exactly when connect and the test append both
succeed, always reports `groq_llm` as "available", and two successive calls
with a working ledger append two independent test rows. -/
theorem c8_health_probe (cOk aOk : Bool) (t1 t2 : DateTime) (st : LedgerState) :
    ((health cOk aOk t1 st).1.google_sheets = "connected" ↔ cOk = true ∧ aOk = true) ∧
    (health cOk aOk t1 st).1.groq_llm = "available" ∧
    (cOk = true → aOk = true →
      (health cOk aOk t1 st).2 = st ++ [[formatTimestamp t1, "TEST_POKEMON", "0"]]) ∧
    (cOk = false ∨ aOk = false → (health cOk aOk t1 st).2 = st) ∧
    (health true true t2 (health true true t1 st).2).2 =
      st ++ [[formatTimestamp t1, "TEST_POKEMON", "0"]] ++
        [[formatTimestamp t2, "TEST_POKEMON", "0"]] := by
  cases cOk <;> cases aOk <;>
    simp [health, test_google_sheets_connection, init_google_sheets]

/-- Witness for C8: a working ledger probed twice records two test rows. -/
theorem c8_health_probe_witness :
    ((health true true sampleNow []).1.google_sheets = "connected" ↔
      true = true ∧ true = true) ∧
    (health true true sampleNow []).1.groq_llm = "available" ∧
    (true = true → true = true →
      (health true true sampleNow []).2 =
        [] ++ [[formatTimestamp sampleNow, "TEST_POKEMON", "0"]]) ∧
    (true = false ∨ true = false → (health true true sampleNow []).2 = []) ∧
    (health true true sampleNow (health true true sampleNow []).2).2 =
      [] ++ [[formatTimestamp sampleNow, "TEST_POKEMON", "0"]] ++
        [[formatTimestamp sampleNow, "TEST_POKEMON", "0"]] :=
  c8_health_probe true true sampleNow sampleNow []

/-- C9: the ledger connect operation writes nothing: a call to
`initialize_google_sheets` (embedded as `init_google_sheets`) returns the
ledger unchanged, repeating it changes nothing and returns the same handle,
and the whole connection retry loop of the pipeline also leaves the ledger
untouched. -/
theorem c9_connect_no_side_effect (ok : Bool) (st : LedgerState) :
    (init_google_sheets ok st).2 = st ∧
    init_google_sheets ok (init_google_sheets ok st).2 = init_google_sheets ok st ∧
    (∀ env fuel calls, (connectLoop env fuel calls st).2.2 = st) :=
  ⟨rfl, rfl, fun env fuel calls => connectLoop_state env fuel calls st⟩

/-- Build an `EmailDetails` with the given optional text body, markup body,
sender and subject. -/
def mkDetails (t h f s : Option String) : EmailDetails :=
  { body := some (EmailBody.mk t h), fromAddr := f, subject := s }

/-- C10: line 112 uses the plain-text body whenever it is non-empty and falls
back to the markup body only when the plain-text body is empty or missing;
with a non-empty plain-text body neither the chosen extraction input nor the
whole pipeline output depends on the markup body. -/
theorem c10_text_body_precedence (d : EmailDetails) (f s : Option String)
    (t : String) (h1 h2 : Option String) (ht : t ≠ "") :
    (bodyText d ≠ "" → getEmailBody d = bodyText d) ∧
    (bodyText d = "" → getEmailBody d = bodyHtml d) ∧
    getEmailBody (mkDetails (some t) h1 f s) = t ∧
    (∀ env st,
      analyze_with_llm env (mkDetails (some t) h1 f s) st =
      analyze_with_llm env (mkDetails (some t) h2 f s) st) := by
  have hb1 : getEmailBody (mkDetails (some t) h1 f s) = t := by
    simp [getEmailBody, bodyText, bodyHtml, mkDetails, ht]
  have hb2 : getEmailBody (mkDetails (some t) h2 f s) = t := by
    simp [getEmailBody, bodyText, bodyHtml, mkDetails, ht]
  refine ⟨?_, ?_, hb1, ?_⟩
  · intro h
    simp [getEmailBody, h]
  · intro h
    simp [getEmailBody, h]
  · intro env st
    unfold analyze_with_llm
    rw [hb1, hb2]

/-- Witness for C10 at two requests differing only in their markup bodies. -/
theorem c10_text_body_precedence_witness :
    (bodyText sampleDetails ≠ "" → getEmailBody sampleDetails = bodyText sampleDetails) ∧
    (bodyText sampleDetails = "" → getEmailBody sampleDetails = bodyHtml sampleDetails) ∧
    getEmailBody (mkDetails (some "payout 135") none none none) = "payout 135" ∧
    (∀ env st,
      analyze_with_llm env (mkDetails (some "payout 135") none none none) st =
      analyze_with_llm env
        (mkDetails (some "payout 135") (some "<b>other</b>") none none) st) :=
  c10_text_body_precedence sampleDetails none none "payout 135" none
    (some "<b>other</b>") (by decide)

end PokemonSalesTracker
